import Mathlib

/-!
Verification of the step-monitor training callback
(`src/DenseDiT_dai_no/src/train/callbacks.py`, class `TrainingCallback`).

The Python class is shallowly embedded as follows:

* the mutable object state becomes the structure `TrainingCallback`;
* the constructor becomes `TrainingCallback.init`, taking the configuration
  dictionary as an association list of dynamically typed values plus the
  ambient facts the constructor reads (`wandb` importability, the process
  environment);
* `on_train_batch_end` becomes a pure function from the callback state and
  the per-call inputs to the new state together with the list of observable
  side effects (log emissions, prints, checkpoint requests, seedings,
  directory creations, generation requests, image writes), in program order;
* gradient tensors are abstracted by their L2 norms (a parameter is a name
  paired with `Option ℚ`: `some q` when it carries a gradient of norm `q`);
  floats are modelled as rationals;
* `generate_a_sample` becomes a trace-producing function `generate_a_sample`;
  the filesystem fact it reads (`os.path.exists(save_path)`) is an input;
* for error propagation, `on_train_batch_endE` threads the `Except` monad
  through the two fallible collaborators (`pl_module.save_lora` and
  `generate`); the Python code installs no handler, so an exception
  short-circuits the call exactly as `Except.error` does.
-/

/-- A dynamically typed value of the Python configuration dictionary.
Only the shapes the constructor reads are represented: integers, strings,
and an opaque mapping (the optional `wandb` sub-configuration). -/
inductive ConfigValue where
  | natV (n : Nat)
  | strV (s : String)
  | dictV
deriving DecidableEq, Repr

/-- The `training_config` dictionary: an association list from keys to
values.  `dict.get(k, d)` is `List.lookup` with a fallback. -/
def Config : Type := List (String × ConfigValue)

/-- `training_config.get(key, default)` for an integer-valued option. -/
def Config.getNat (cfg : Config) (key : String) (dflt : Nat) : Nat :=
  match List.lookup key cfg with
  | some (ConfigValue.natV n) => n
  | _ => dflt

/-- `training_config.get(key, default)` for a string-valued option. -/
def Config.getStr (cfg : Config) (key : String) (dflt : String) : String :=
  match List.lookup key cfg with
  | some (ConfigValue.strV s) => s
  | _ => dflt

/-- The state of a `TrainingCallback` object: the fields set in
`__init__` (`run_name`, the four configuration-derived fields, the stored
`wandb` sub-configuration, the resolved `use_wandb` flag) and the mutable
step counter `total_steps`. -/
structure TrainingCallback where
  run_name : String
  print_every_n_steps : Nat
  save_interval : Nat
  sample_interval : Nat
  save_path : String
  wandb_config : Option ConfigValue
  use_wandb : Bool
  total_steps : Nat
deriving DecidableEq, Repr

/-- `TrainingCallback.__init__(run_name, training_config)`.
`wandbAvailable` models `wandb is not None` (the `import wandb` at module
load succeeded); `env` models `os.environ`.  `use_wandb` is
`wandb is not None and os.environ.get("WANDB_API_KEY") is not None`. -/
def TrainingCallback.init (run_name : String) (training_config : Config)
    (wandbAvailable : Bool) (env : String → Option String) :
    TrainingCallback :=
  { run_name := run_name
    print_every_n_steps := Config.getNat training_config "print_every_n_steps" 10
    save_interval := Config.getNat training_config "save_interval" 1000
    sample_interval := Config.getNat training_config "sample_interval" 1000
    save_path := Config.getStr training_config "save_path" "./output"
    wandb_config := List.lookup "wandb" training_config
    use_wandb := wandbAvailable && (env "WANDB_API_KEY").isSome
    total_steps := 0 }

/-- The `trainer` argument: the fields `on_train_batch_end` reads. -/
structure Trainer where
  current_epoch : Nat
  accumulate_grad_batches : Nat
deriving DecidableEq, Repr

/-- The `pl_module` argument: its parameter list (each parameter abstracted
to its name and, when `param.grad is not None`, the L2 norm
`param.grad.norm(2).item()` as a rational), and the scalar attributes read
by the callback. -/
structure PlModule where
  named_parameters : List (String × Option ℚ)
  log_loss : ℚ
  last_t : ℚ
deriving DecidableEq, Repr

/-- The `outputs` argument: only `outputs["loss"].item()` is read. -/
structure Outputs where
  loss : ℚ
deriving DecidableEq, Repr

/-- All inputs of one `on_train_batch_end` call, including the filesystem
fact read inside `generate_a_sample` (`os.path.exists` on the sample output
directory). -/
structure BatchInput where
  trainer : Trainer
  pl_module : PlModule
  outputs : Outputs
  batch_idx : Nat
  outputDirExists : Bool
deriving DecidableEq, Repr

/-- One iteration of the gradient statistics loop of
`on_train_batch_end` over `pl_module.named_parameters()`: when the
parameter carries a gradient, add its L2 norm to `gradient_size`, update
`max_gradient_size`, and increment `count`; otherwise leave the
accumulator unchanged. -/
def gradStep (acc : ℚ × ℚ × Nat) (p : String × Option ℚ) : ℚ × ℚ × Nat :=
  match p.2 with
  | some g => (acc.1 + g, max acc.2.1 g, acc.2.2 + 1)
  | none => acc

/-- The gradient statistics of `on_train_batch_end`: fold `gradStep` over
the parameter list from `(0, 0, 0)`, then apply the guarded division
`if count > 0: gradient_size /= count`. -/
def gradStats (params : List (String × Option ℚ)) : ℚ × ℚ × Nat :=
  let r := params.foldl gradStep (0, 0, 0)
  if r.2.2 > 0 then (r.1 / (r.2.2 : ℚ), r.2.1, r.2.2) else r

/-- An observable side effect of the callback, in program order:
a structured `wandb.log` record, the formatted progress print (carrying the
numbers that feed the format string), the two announcement prints, the
checkpoint request `pl_module.save_lora(path)`, the generator seeding, the
directory creation, the generation request (conditioning-image path,
context-image path, prompt, height, width, seed), and the image write. -/
inductive Effect where
  | wandbLog (batch steps epoch : Nat) (gradient_size loss t : ℚ)
  | printProgress (epoch steps batch : Nat) (loss gradient_size max_gradient_size : ℚ)
  | printMsg (epoch steps : Nat) (msg : String)
  | saveLora (path : String)
  | manualSeed (seed : Nat)
  | makedirs (path : String)
  | generateReq (cond ctx prompt : String) (height width seed : Nat)
  | saveImage (path : String)
deriving DecidableEq, Repr

/-- Whether an effect is the structured log emission. -/
def Effect.isWandbLog : Effect → Bool
  | Effect.wandbLog _ _ _ _ _ _ => true
  | _ => false

/-- Whether an effect is the progress print. -/
def Effect.isPrintProgress : Effect → Bool
  | Effect.printProgress _ _ _ _ _ _ => true
  | _ => false

/-- Whether an effect is a checkpoint request. -/
def Effect.isSaveLora : Effect → Bool
  | Effect.saveLora _ => true
  | _ => false

/-- Whether an effect is a generation request. -/
def Effect.isGenerateReq : Effect → Bool
  | Effect.generateReq _ _ _ _ _ _ => true
  | _ => false

/-- Whether an effect is a generator seeding. -/
def Effect.isManualSeed : Effect → Bool
  | Effect.manualSeed _ => true
  | _ => false

/-- Whether an effect is a directory creation. -/
def Effect.isMakedirs : Effect → Bool
  | Effect.makedirs _ => true
  | _ => false

/-- Whether an effect is an image write. -/
def Effect.isSaveImage : Effect → Bool
  | Effect.saveImage _ => true
  | _ => false

/-- The rank of the three cadence-gated actions in the trace, used to state
their firing and relative order in one list: the progress print is `0`, the
checkpoint request `1`, the sample generation request `2`; every other
effect is dropped. -/
def Effect.actionKind : Effect → Option Nat
  | Effect.printProgress _ _ _ _ _ _ => some 0
  | Effect.saveLora _ => some 1
  | Effect.generateReq _ _ _ _ _ _ => some 2
  | _ => none

/-- The hard-coded single test triple of `generate_a_sample`: the
conditioning image path, the context image path, and the prompt (the images
are abstracted by the paths they are opened from). -/
def test_list : List (String × String × String) :=
  [("path/to/a/val/image/of/the/denseworld/task",
    "path/to/a/demo/image/of/the/denseworld/task",
    "The prompt for the task")]

/-- The per-sample loop body of `generate_a_sample`: for the `i`-th triple,
one generation request followed by the image write to
`os.path.join(save_path, file_name + "_" + i + ".jpg")`. -/
def sampleLoop (save_path file_name : String) :
    List (Nat × (String × String × String)) → List Effect
  | [] => []
  | (i, (c, cx, p)) :: rest =>
    Effect.generateReq c cx p 512 512 42 ::
    Effect.saveImage (save_path ++ "/" ++ file_name ++ "_" ++ toString i ++ ".jpg") ::
    sampleLoop save_path file_name rest

/-- `TrainingCallback.generate_a_sample(trainer, pl_module, save_path,
file_name)` as its effect trace: seed the generator with 42, build the
one-element `test_list`, create the directory only when it does not exist,
then run the sample loop.  `dirExists` is the value of
`os.path.exists(save_path)` at the call. -/
def generate_a_sample (dirExists : Bool) (save_path file_name : String) :
    List Effect :=
  [Effect.manualSeed 42]
    ++ (if dirExists then [] else [Effect.makedirs save_path])
    ++ sampleLoop save_path file_name test_list.enum

/-- `TrainingCallback.on_train_batch_end(trainer, pl_module, outputs,
batch, batch_idx)`: compute the gradient statistics, increment
`total_steps`, then emit, in program order, the conditional `wandb.log`
record, the conditional progress print, the conditional checkpoint request
(with its announcement print), and the conditional sample generation (with
its announcement print).  Returns the new state and the effect trace. -/
def on_train_batch_end (cb : TrainingCallback) (inp : BatchInput) :
    TrainingCallback × List Effect :=
  let stats := gradStats inp.pl_module.named_parameters
  let gradient_size := stats.1
  let max_gradient_size := stats.2.1
  let steps := cb.total_steps + 1
  let wandbEff :=
    if cb.use_wandb then
      [Effect.wandbLog inp.batch_idx steps inp.trainer.current_epoch
        gradient_size
        (inp.outputs.loss * (inp.trainer.accumulate_grad_batches : ℚ))
        inp.pl_module.last_t]
    else []
  let printEff :=
    if steps % cb.print_every_n_steps = 0 then
      [Effect.printProgress inp.trainer.current_epoch steps inp.batch_idx
        inp.pl_module.log_loss gradient_size max_gradient_size]
    else []
  let saveEff :=
    if steps % cb.save_interval = 0 then
      [Effect.printMsg inp.trainer.current_epoch steps "Saving LoRA weights",
       Effect.saveLora
         (cb.save_path ++ "/" ++ cb.run_name ++ "/ckpt/" ++ toString steps)]
    else []
  let sampleEff :=
    if steps % cb.sample_interval = 0 then
      Effect.printMsg inp.trainer.current_epoch steps "Generating a sample" ::
      generate_a_sample inp.outputDirExists
        (cb.save_path ++ "/" ++ cb.run_name ++ "/output")
        ("lora_" ++ toString steps)
    else []
  ({ cb with total_steps := steps },
   wandbEff ++ printEff ++ saveEff ++ sampleEff)

/-- A sequence of `on_train_batch_end` calls, threading the state. -/
def runSteps (cb : TrainingCallback) (inputs : List BatchInput) :
    TrainingCallback :=
  inputs.foldl (fun c i => (on_train_batch_end c i).1) cb

/-- The per-sample loop of `generate_a_sample` with a fallible `generate`
collaborator: Python installs no handler around the call, so an exception
raised by `generate` aborts the remaining iterations and the whole call. -/
def sampleLoopE {E : Type} (gen : String → String → String → Nat → Nat → Nat → Except E Unit)
    (save_path file_name : String) :
    List (Nat × (String × String × String)) → Except E (List Effect)
  | [] => Except.ok []
  | (i, (c, cx, p)) :: rest =>
    match gen c cx p 512 512 42 with
    | Except.error e => Except.error e
    | Except.ok _ =>
      match sampleLoopE gen save_path file_name rest with
      | Except.error e => Except.error e
      | Except.ok effs =>
        Except.ok
          (Effect.generateReq c cx p 512 512 42 ::
           Effect.saveImage (save_path ++ "/" ++ file_name ++ "_" ++ toString i ++ ".jpg") ::
           effs)

/-- `generate_a_sample` with a fallible `generate` collaborator. -/
def generate_a_sampleE {E : Type}
    (gen : String → String → String → Nat → Nat → Nat → Except E Unit)
    (dirExists : Bool) (save_path file_name : String) :
    Except E (List Effect) :=
  match sampleLoopE gen save_path file_name test_list.enum with
  | Except.error e => Except.error e
  | Except.ok effs =>
    Except.ok
      ([Effect.manualSeed 42]
        ++ (if dirExists then [] else [Effect.makedirs save_path])
        ++ effs)

/-- `on_train_batch_end` with fallible collaborators: `save_lora` models
`pl_module.save_lora(path)` and `gen` models the `generate(...)` call inside
`generate_a_sample`.  The Python method installs no `try`/`except`, so an
exception from either collaborator aborts the call and propagates; the
effects already performed are not represented on the error path (only the
propagated error is). -/
def on_train_batch_endE {E : Type} (save_lora : String → Except E Unit)
    (gen : String → String → String → Nat → Nat → Nat → Except E Unit)
    (cb : TrainingCallback) (inp : BatchInput) :
    Except E (TrainingCallback × List Effect) :=
  let stats := gradStats inp.pl_module.named_parameters
  let gradient_size := stats.1
  let max_gradient_size := stats.2.1
  let steps := cb.total_steps + 1
  let wandbEff :=
    if cb.use_wandb then
      [Effect.wandbLog inp.batch_idx steps inp.trainer.current_epoch
        gradient_size
        (inp.outputs.loss * (inp.trainer.accumulate_grad_batches : ℚ))
        inp.pl_module.last_t]
    else []
  let printEff :=
    if steps % cb.print_every_n_steps = 0 then
      [Effect.printProgress inp.trainer.current_epoch steps inp.batch_idx
        inp.pl_module.log_loss gradient_size max_gradient_size]
    else []
  let saveRes :=
    if steps % cb.save_interval = 0 then
      match save_lora (cb.save_path ++ "/" ++ cb.run_name ++ "/ckpt/" ++ toString steps) with
      | Except.error e => Except.error e
      | Except.ok _ =>
        Except.ok
          [Effect.printMsg inp.trainer.current_epoch steps "Saving LoRA weights",
           Effect.saveLora
             (cb.save_path ++ "/" ++ cb.run_name ++ "/ckpt/" ++ toString steps)]
    else Except.ok []
  match saveRes with
  | Except.error e => Except.error e
  | Except.ok saveEff =>
    let sampleRes :=
      if steps % cb.sample_interval = 0 then
        match generate_a_sampleE gen inp.outputDirExists
            (cb.save_path ++ "/" ++ cb.run_name ++ "/output")
            ("lora_" ++ toString steps) with
        | Except.error e => Except.error e
        | Except.ok effs =>
          Except.ok
            (Effect.printMsg inp.trainer.current_epoch steps "Generating a sample" :: effs)
      else Except.ok []
    match sampleRes with
    | Except.error e => Except.error e
    | Except.ok sampleEff =>
      Except.ok
        ({ cb with total_steps := steps },
         wandbEff ++ printEff ++ saveEff ++ sampleEff)

/-- Sanity link between the two embeddings: with collaborators that never
fail, the fallible semantics agrees with the pure trace semantics. -/
theorem on_train_batch_endE_ok (cb : TrainingCallback) (inp : BatchInput) :
    on_train_batch_endE (E := Unit) (fun _ => Except.ok ())
      (fun _ _ _ _ _ _ => Except.ok ()) cb inp =
      Except.ok (on_train_batch_end cb inp) := by
  unfold on_train_batch_endE on_train_batch_end generate_a_sampleE generate_a_sample
  simp only [test_list, List.enum, sampleLoopE, sampleLoop]
  by_cases hs : (cb.total_steps + 1) % cb.save_interval = 0 <;>
    by_cases hm : (cb.total_steps + 1) % cb.sample_interval = 0 <;>
      simp [hs, hm]

/-- One call advances the counter by exactly one. -/
theorem on_train_batch_end_total_steps (cb : TrainingCallback) (inp : BatchInput) :
    (on_train_batch_end cb inp).1.total_steps = cb.total_steps + 1 := rfl

/-- Running a list of calls adds the list length to the counter. -/
theorem runSteps_total_steps (inputs : List BatchInput) (cb : TrainingCallback) :
    (runSteps cb inputs).total_steps = cb.total_steps + inputs.length := by
  induction inputs generalizing cb with
  | nil => simp [runSteps]
  | cons i rest ih =>
    have h := ih (on_train_batch_end cb i).1
    simp only [runSteps, List.foldl] at h ⊢
    rw [h, on_train_batch_end_total_steps]
    simp [List.length_cons]
    omega

/-- C1: a freshly constructed callback starts with `total_steps = 0`, every
`on_train_batch_end` call increments `total_steps` by exactly one, and after
any sequence of N calls the counter equals N — it is never reset or
decremented. -/
theorem step_counter_counts_calls (run_name : String) (cfg : Config)
    (wandbAvailable : Bool) (env : String → Option String)
    (inputs : List BatchInput) :
    (TrainingCallback.init run_name cfg wandbAvailable env).total_steps = 0 ∧
    (∀ (cb : TrainingCallback) (inp : BatchInput),
      (on_train_batch_end cb inp).1.total_steps = cb.total_steps + 1) ∧
    (runSteps (TrainingCallback.init run_name cfg wandbAvailable env)
        inputs).total_steps = inputs.length := by
  refine ⟨rfl, fun cb inp => rfl, ?_⟩
  rw [runSteps_total_steps]
  simp [TrainingCallback.init]

/-- C9: a call to `on_train_batch_end` changes no field of the callback
state other than `total_steps`: the run name, the three interval
thresholds, the save path, the stored wandb configuration and the resolved
`use_wandb` flag are all preserved, while `total_steps` becomes its
successor. -/
theorem on_train_batch_end_frame (cb : TrainingCallback) (inp : BatchInput) :
    (on_train_batch_end cb inp).1.run_name = cb.run_name ∧
    (on_train_batch_end cb inp).1.print_every_n_steps = cb.print_every_n_steps ∧
    (on_train_batch_end cb inp).1.save_interval = cb.save_interval ∧
    (on_train_batch_end cb inp).1.sample_interval = cb.sample_interval ∧
    (on_train_batch_end cb inp).1.save_path = cb.save_path ∧
    (on_train_batch_end cb inp).1.wandb_config = cb.wandb_config ∧
    (on_train_batch_end cb inp).1.use_wandb = cb.use_wandb ∧
    (on_train_batch_end cb inp).1.total_steps = cb.total_steps + 1 :=
  ⟨rfl, rfl, rfl, rfl, rfl, rfl, rfl, rfl⟩

/-- C2: with positive intervals, during a call whose incremented counter is
S, the progress print fires iff `S % print_every_n_steps = 0`, the
checkpoint request fires iff `S % save_interval = 0`, and the sample
generation fires iff `S % sample_interval = 0`; each condition mentions
only its own interval (so the checks are independent), and the projection
of the trace to the three actions is exactly the concatenation
print-part ++ checkpoint-part ++ sample-part, fixing the order. -/
theorem cadence_fires_iff_mod (cb : TrainingCallback) (inp : BatchInput)
    (hp : 0 < cb.print_every_n_steps) (hs : 0 < cb.save_interval)
    (hm : 0 < cb.sample_interval) :
    ((on_train_batch_end cb inp).2.any Effect.isPrintProgress = true ↔
      (cb.total_steps + 1) % cb.print_every_n_steps = 0) ∧
    ((on_train_batch_end cb inp).2.any Effect.isSaveLora = true ↔
      (cb.total_steps + 1) % cb.save_interval = 0) ∧
    ((on_train_batch_end cb inp).2.any Effect.isGenerateReq = true ↔
      (cb.total_steps + 1) % cb.sample_interval = 0) ∧
    (on_train_batch_end cb inp).2.filterMap Effect.actionKind =
      (if (cb.total_steps + 1) % cb.print_every_n_steps = 0 then [0] else [])
        ++ (if (cb.total_steps + 1) % cb.save_interval = 0 then [1] else [])
        ++ (if (cb.total_steps + 1) % cb.sample_interval = 0 then [2] else []) := by
  unfold on_train_batch_end
  by_cases hw : cb.use_wandb <;>
    by_cases h1 : (cb.total_steps + 1) % cb.print_every_n_steps = 0 <;>
      by_cases h2 : (cb.total_steps + 1) % cb.save_interval = 0 <;>
        by_cases h3 : (cb.total_steps + 1) % cb.sample_interval = 0 <;>
          simp [hw, h1, h2, h3, generate_a_sample, sampleLoop, test_list,
            List.enum, Effect.actionKind, Effect.isPrintProgress,
            Effect.isSaveLora, Effect.isGenerateReq]

/-- A concrete callback state used by the witnesses: all three intervals
are 1, logging enabled, counter at 0. -/
def cbW : TrainingCallback :=
  { run_name := "run"
    print_every_n_steps := 1
    save_interval := 1
    sample_interval := 1
    save_path := "./out"
    wandb_config := none
    use_wandb := true
    total_steps := 0 }

/-- A concrete batch input used by the witnesses: one gradient-bearing
parameter of norm 2, `log_loss = 1`, step loss 2, accumulation factor 1,
output directory already present. -/
def inpW : BatchInput :=
  { trainer := { current_epoch := 0, accumulate_grad_batches := 1 }
    pl_module := { named_parameters := [("w", some 2)], log_loss := 1, last_t := 0 }
    outputs := { loss := 2 }
    batch_idx := 0
    outputDirExists := true }

/-- Witness for C2 at `cbW`, `inpW`: all hypotheses hold and all four
conclusions evaluate on the concrete trace. -/
theorem cadence_fires_iff_mod_witness :
    0 < cbW.print_every_n_steps ∧ 0 < cbW.save_interval ∧
    0 < cbW.sample_interval ∧
    (((on_train_batch_end cbW inpW).2.any Effect.isPrintProgress = true ↔
      (cbW.total_steps + 1) % cbW.print_every_n_steps = 0) ∧
    ((on_train_batch_end cbW inpW).2.any Effect.isSaveLora = true ↔
      (cbW.total_steps + 1) % cbW.save_interval = 0) ∧
    ((on_train_batch_end cbW inpW).2.any Effect.isGenerateReq = true ↔
      (cbW.total_steps + 1) % cbW.sample_interval = 0) ∧
    (on_train_batch_end cbW inpW).2.filterMap Effect.actionKind =
      (if (cbW.total_steps + 1) % cbW.print_every_n_steps = 0 then [0] else [])
        ++ (if (cbW.total_steps + 1) % cbW.save_interval = 0 then [1] else [])
        ++ (if (cbW.total_steps + 1) % cbW.sample_interval = 0 then [2] else [])) :=
  ⟨by decide, by decide, by decide,
   cadence_fires_iff_mod cbW inpW (by decide) (by decide) (by decide)⟩

/-- The running sum of the gradient fold is the initial sum plus the sum of
the present norms. -/
theorem gradFold_fst (params : List (String × Option ℚ)) (s m : ℚ) (c : Nat) :
    (params.foldl gradStep (s, m, c)).1 = s + (params.filterMap Prod.snd).sum := by
  induction params generalizing s m c with
  | nil => simp
  | cons p rest ih =>
    rcases p with ⟨n, g⟩
    cases g with
    | none => simpa [gradStep] using ih s m c
    | some q =>
      simp only [List.foldl_cons, gradStep, List.filterMap_cons, List.sum_cons]
      rw [ih]
      ring

/-- The running count of the gradient fold is the initial count plus the
number of present norms. -/
theorem gradFold_count (params : List (String × Option ℚ)) (s m : ℚ) (c : Nat) :
    (params.foldl gradStep (s, m, c)).2.2 =
      c + (params.filterMap Prod.snd).length := by
  induction params generalizing s m c with
  | nil => simp
  | cons p rest ih =>
    rcases p with ⟨n, g⟩
    cases g with
    | none => simpa [gradStep] using ih s m c
    | some q =>
      simp only [List.foldl_cons, gradStep, List.filterMap_cons, List.length_cons]
      rw [ih]
      omega

/-- The running max of the gradient fold is the max-fold of the present
norms over the initial max. -/
theorem gradFold_max (params : List (String × Option ℚ)) (s m : ℚ) (c : Nat) :
    (params.foldl gradStep (s, m, c)).2.1 =
      (params.filterMap Prod.snd).foldl max m := by
  induction params generalizing s m c with
  | nil => simp
  | cons p rest ih =>
    rcases p with ⟨n, g⟩
    cases g with
    | none => simpa [gradStep] using ih s m c
    | some q => simp [gradStep, ih]

/-- The seed of a max-fold is below its result. -/
theorem le_foldl_max (l : List ℚ) (a : ℚ) : a ≤ l.foldl max a := by
  induction l generalizing a with
  | nil => simp
  | cons x l ih => exact le_trans (le_max_left a x) (ih (max a x))

/-- Every member of a list is below its max-fold. -/
theorem mem_le_foldl_max (l : List ℚ) (a x : ℚ) (hx : x ∈ l) :
    x ≤ l.foldl max a := by
  induction l generalizing a with
  | nil => cases hx
  | cons y l ih =>
    rcases List.mem_cons.mp hx with h | h
    · subst h
      exact le_trans (le_max_right a x) (le_foldl_max l (max a x))
    · exact ih (max a y) h

/-- A max-fold is either its seed or a member of the list. -/
theorem foldl_max_eq_or_mem (l : List ℚ) (a : ℚ) :
    l.foldl max a = a ∨ l.foldl max a ∈ l := by
  induction l generalizing a with
  | nil => exact Or.inl rfl
  | cons y l ih =>
    rcases ih (max a y) with h | h
    · rcases max_choice a y with hy | hy
      · exact Or.inl (by simp only [List.foldl_cons]; rw [h, hy])
      · exact Or.inr (by simp only [List.foldl_cons]; rw [h, hy]; exact List.mem_cons_self y l)
    · exact Or.inr (List.mem_cons_of_mem y h)

/-- C3: on a parameter list whose present gradient norms are nonnegative
(as L2 norms are), `gradStats` counts exactly the gradient-bearing
parameters; its mean is 0 when there are none (the division being guarded
by `count > 0`) and otherwise is the sum of the norms divided by their
number; and its max is attained by one of the norms and bounds them all. -/
theorem grad_summary_mean_and_max (params : List (String × Option ℚ))
    (hnn : ∀ q ∈ params.filterMap Prod.snd, 0 ≤ q) :
    (gradStats params).2.2 = (params.filterMap Prod.snd).length ∧
    ((params.filterMap Prod.snd).length = 0 → (gradStats params).1 = 0) ∧
    (0 < (params.filterMap Prod.snd).length →
      (gradStats params).1 =
        (params.filterMap Prod.snd).sum /
          ((params.filterMap Prod.snd).length : ℚ)) ∧
    (0 < (params.filterMap Prod.snd).length →
      (gradStats params).2.1 ∈ params.filterMap Prod.snd ∧
      ∀ q ∈ params.filterMap Prod.snd, q ≤ (gradStats params).2.1) := by
  have hc := gradFold_count params 0 0 0
  have hf := gradFold_fst params 0 0 0
  have hm := gradFold_max params 0 0 0
  simp only [Nat.zero_add, zero_add] at hc hf hm
  have heq : gradStats params =
      if (params.foldl gradStep (0, 0, 0)).2.2 > 0 then
        ((params.foldl gradStep (0, 0, 0)).1 /
            (((params.foldl gradStep (0, 0, 0)).2.2 : ℚ)),
         (params.foldl gradStep (0, 0, 0)).2.1,
         (params.foldl gradStep (0, 0, 0)).2.2)
      else params.foldl gradStep (0, 0, 0) := rfl
  constructor
  · rw [heq]
    split_ifs <;> exact hc
  refine ⟨?_, ?_, ?_⟩
  · intro h0
    rw [heq]
    split_ifs with hpos
    · rw [hc] at hpos; omega
    · rw [hf]
      have : params.filterMap Prod.snd = [] := List.length_eq_zero.mp h0
      simp [this]
  · intro hpos
    rw [heq]
    split_ifs with hgt
    · rw [hf, hc]
    · rw [hc] at hgt; omega
  · intro hpos
    have hmax : (gradStats params).2.1 = (params.filterMap Prod.snd).foldl max 0 := by
      rw [heq]
      split_ifs <;> exact hm
    rcases List.exists_mem_of_length_pos hpos with ⟨q0, hq0⟩
    constructor
    · rcases foldl_max_eq_or_mem (params.filterMap Prod.snd) 0 with h | h
      · have h1 : q0 ≤ (0 : ℚ) := by
          have := mem_le_foldl_max (params.filterMap Prod.snd) 0 q0 hq0
          rw [h] at this; exact this
        have h2 : (0 : ℚ) ≤ q0 := hnn q0 hq0
        have : q0 = (0 : ℚ) := le_antisymm h1 h2
        rw [hmax, h, ← this]; exact hq0
      · rw [hmax]; exact h
    · intro q hq
      rw [hmax]
      exact mem_le_foldl_max _ 0 q hq

/-- A concrete parameter list for the C3 witness: two gradient-bearing
parameters of norms 2 and 4, and one without a gradient. -/
def paramsW : List (String × Option ℚ) :=
  [("a", some 2), ("b", none), ("c", some 4)]

/-- Witness for C3 at `paramsW`: the nonnegativity hypothesis holds and the
summary evaluates to count 2, mean 3, max 4. -/
theorem grad_summary_mean_and_max_witness :
    (∀ q ∈ paramsW.filterMap Prod.snd, 0 ≤ q) ∧
    ((gradStats paramsW).2.2 = (paramsW.filterMap Prod.snd).length ∧
    ((paramsW.filterMap Prod.snd).length = 0 → (gradStats paramsW).1 = 0) ∧
    (0 < (paramsW.filterMap Prod.snd).length →
      (gradStats paramsW).1 =
        (paramsW.filterMap Prod.snd).sum /
          ((paramsW.filterMap Prod.snd).length : ℚ)) ∧
    (0 < (paramsW.filterMap Prod.snd).length →
      (gradStats paramsW).2.1 ∈ paramsW.filterMap Prod.snd ∧
      ∀ q ∈ paramsW.filterMap Prod.snd, q ≤ (gradStats paramsW).2.1)) :=
  ⟨by decide, grad_summary_mean_and_max paramsW (by decide)⟩

/-- Normalization of the sample image path: the path assembled from the
output directory, the `lora_{S}` file stem and the index suffix is the
single path `{savePath}/{runName}/output/lora_{S}_0.jpg`. -/
theorem sample_image_path_eq (a r s : String) :
    (a ++ "/" ++ r ++ "/output") ++ "/" ++ ("lora_" ++ s) ++ "_" ++
        toString (0 : Nat) ++ ".jpg" =
      a ++ "/" ++ r ++ "/output/lora_" ++ s ++ "_0.jpg" := by
  apply String.ext
  have h0 : toString (0 : Nat) = "0" := rfl
  rw [h0]
  simp [String.data_append]

/-- C4: two independent conditionals over any step.  Whenever the
checkpoint action fires at incremented counter S — whether or not the
sample action also fires — the trace contains exactly one checkpoint
request, whose destination is `{savePath}/{runName}/ckpt/{S}`; and
whenever the sample action fires at S — whether or not the checkpoint also
fires — the trace contains exactly one image write, whose destination is
`{savePath}/{runName}/output/lora_{S}_0.jpg` (the single sample has index
0, and the extension is `.jpg`). -/
theorem checkpoint_and_sample_paths (cb : TrainingCallback) (inp : BatchInput) :
    ((cb.total_steps + 1) % cb.save_interval = 0 →
      (on_train_batch_end cb inp).2.filter Effect.isSaveLora =
        [Effect.saveLora (cb.save_path ++ "/" ++ cb.run_name ++ "/ckpt/" ++
          toString (cb.total_steps + 1))]) ∧
    ((cb.total_steps + 1) % cb.sample_interval = 0 →
      (on_train_batch_end cb inp).2.filter Effect.isSaveImage =
        [Effect.saveImage (cb.save_path ++ "/" ++ cb.run_name ++
          "/output/lora_" ++ toString (cb.total_steps + 1) ++ "_0.jpg")]) := by
  have hpath :=
    sample_image_path_eq cb.save_path cb.run_name (toString (cb.total_steps + 1))
  constructor
  · intro hsv
    unfold on_train_batch_end
    by_cases hw : cb.use_wandb <;>
      by_cases h1 : (cb.total_steps + 1) % cb.print_every_n_steps = 0 <;>
        by_cases hsm : (cb.total_steps + 1) % cb.sample_interval = 0 <;>
          simp [hw, h1, hsv, hsm, generate_a_sample, sampleLoop, test_list,
            List.enum, List.enumFrom, Effect.isSaveLora]
  · intro hsm
    unfold on_train_batch_end
    by_cases hw : cb.use_wandb <;>
      by_cases h1 : (cb.total_steps + 1) % cb.print_every_n_steps = 0 <;>
        by_cases hsv : (cb.total_steps + 1) % cb.save_interval = 0 <;>
          simp [hw, h1, hsv, hsm, generate_a_sample, sampleLoop, test_list,
            List.enum, List.enumFrom, Effect.isSaveImage, hpath]

/-- A callback state where at the next step (S = 2) only the checkpoint
cadence fires: intervals 1 / 2 / 3, counter at 1. -/
def cbW2 : TrainingCallback :=
  { cbW with save_interval := 2, sample_interval := 3, total_steps := 1 }

/-- A callback state where at the next step (S = 3) only the sample
cadence fires: intervals 1 / 2 / 3, counter at 2. -/
def cbW3 : TrainingCallback :=
  { cbW with save_interval := 2, sample_interval := 3, total_steps := 2 }

/-- Witness for C4: at `cbW2` only the checkpoint fires and the
checkpoint-path conclusion evaluates; at `cbW3` only the sample fires and
the image-path conclusion evaluates; each hypothesis is discharged
separately. -/
theorem checkpoint_and_sample_paths_witness :
    ((cbW2.total_steps + 1) % cbW2.save_interval = 0 ∧
      (on_train_batch_end cbW2 inpW).2.filter Effect.isSaveLora =
        [Effect.saveLora (cbW2.save_path ++ "/" ++ cbW2.run_name ++
          "/ckpt/" ++ toString (cbW2.total_steps + 1))]) ∧
    ((cbW3.total_steps + 1) % cbW3.sample_interval = 0 ∧
      (on_train_batch_end cbW3 inpW).2.filter Effect.isSaveImage =
        [Effect.saveImage (cbW3.save_path ++ "/" ++ cbW3.run_name ++
          "/output/lora_" ++ toString (cbW3.total_steps + 1) ++ "_0.jpg")]) :=
  ⟨⟨by decide, (checkpoint_and_sample_paths cbW2 inpW).1 (by decide)⟩,
   ⟨by decide, (checkpoint_and_sample_paths cbW3 inpW).2 (by decide)⟩⟩

/-- C5: `use_wandb` is resolved at construction as availability of the
backend module AND presence of the credential in the environment; with it
false, the trace contains no log record; and two callbacks differing only
in `use_wandb` produce identical traces once log records are removed, and
identical post states up to the `use_wandb` field itself — printing,
checkpointing and sampling are unaffected by credential availability. -/
theorem logging_resolution_and_noninterference (run_name : String)
    (cfg : Config) (wa : Bool) (env : String → Option String)
    (cb : TrainingCallback) (inp : BatchInput) (b : Bool) :
    (TrainingCallback.init run_name cfg wa env).use_wandb =
      (wa && (env "WANDB_API_KEY").isSome) ∧
    (cb.use_wandb = false →
      (on_train_batch_end cb inp).2.filter Effect.isWandbLog = []) ∧
    (on_train_batch_end { cb with use_wandb := b } inp).2.filter
        (fun e => ! e.isWandbLog) =
      (on_train_batch_end cb inp).2.filter (fun e => ! e.isWandbLog) ∧
    (on_train_batch_end { cb with use_wandb := b } inp).1 =
      { (on_train_batch_end cb inp).1 with use_wandb := b } := by
  refine ⟨rfl, ?_, ?_, ?_⟩
  · intro hw
    unfold on_train_batch_end
    by_cases h1 : (cb.total_steps + 1) % cb.print_every_n_steps = 0 <;>
      by_cases h2 : (cb.total_steps + 1) % cb.save_interval = 0 <;>
        by_cases h3 : (cb.total_steps + 1) % cb.sample_interval = 0 <;>
          simp [hw, h1, h2, h3, generate_a_sample, sampleLoop, test_list,
            List.enum, List.enumFrom, Effect.isWandbLog]
  · unfold on_train_batch_end
    by_cases hw : cb.use_wandb <;> by_cases hb : b <;>
      by_cases h1 : (cb.total_steps + 1) % cb.print_every_n_steps = 0 <;>
        by_cases h2 : (cb.total_steps + 1) % cb.save_interval = 0 <;>
          by_cases h3 : (cb.total_steps + 1) % cb.sample_interval = 0 <;>
            simp [hw, hb, h1, h2, h3, generate_a_sample, sampleLoop,
              test_list, List.enum, List.enumFrom, Effect.isWandbLog]
  · rfl

/-- Witness for C5: with the credential absent (`use_wandb = false`) the
concrete trace holds no log record. -/
theorem logging_resolution_and_noninterference_witness :
    ({ cbW with use_wandb := false } : TrainingCallback).use_wandb = false ∧
    (on_train_batch_end { cbW with use_wandb := false } inpW).2.filter
      Effect.isWandbLog = [] :=
  ⟨by decide,
   (logging_resolution_and_noninterference "run" [] false (fun _ => none)
      { cbW with use_wandb := false } inpW true).2.1 (by decide)⟩

/-- C6: the callback installs no handler, so a failure of the checkpoint
collaborator on a step where the checkpoint fires, or of the generation
collaborator on a step where the sample fires, propagates unmodified (the
very same error value) to the caller, and the call produces no result
state: the step fails; the callback performs no retry. -/
theorem collaborator_failure_propagates {E : Type} (cb : TrainingCallback)
    (inp : BatchInput) (e : E) (save_lora : String → Except E Unit)
    (gen : String → String → String → Nat → Nat → Nat → Except E Unit) :
    ((cb.total_steps + 1) % cb.save_interval = 0 →
      save_lora (cb.save_path ++ "/" ++ cb.run_name ++ "/ckpt/" ++
        toString (cb.total_steps + 1)) = Except.error e →
      on_train_batch_endE save_lora gen cb inp = Except.error e) ∧
    ((∀ p, save_lora p = Except.ok ()) →
      (cb.total_steps + 1) % cb.sample_interval = 0 →
      gen "path/to/a/val/image/of/the/denseworld/task"
          "path/to/a/demo/image/of/the/denseworld/task"
          "The prompt for the task" 512 512 42 = Except.error e →
      on_train_batch_endE save_lora gen cb inp = Except.error e) := by
  constructor
  · intro hsv herr
    unfold on_train_batch_endE
    simp [hsv, herr]
  · intro hok hsm herr
    unfold on_train_batch_endE
    by_cases hsv : (cb.total_steps + 1) % cb.save_interval = 0 <;>
      simp [hsv, hsm, hok, herr, generate_a_sampleE, sampleLoopE, test_list,
        List.enum, List.enumFrom]

/-- Witness for C6 at `cbW`, `inpW`: a failing checkpoint collaborator
makes the whole call return exactly its error, and likewise a failing
generation collaborator. -/
theorem collaborator_failure_propagates_witness :
    ((cbW.total_steps + 1) % cbW.save_interval = 0 ∧
      on_train_batch_endE (fun _ => Except.error "disk full")
        (fun _ _ _ _ _ _ => Except.ok ()) cbW inpW =
        Except.error "disk full") ∧
    ((cbW.total_steps + 1) % cbW.sample_interval = 0 ∧
      on_train_batch_endE (fun _ => Except.ok ())
        (fun _ _ _ _ _ _ => Except.error "generation failed") cbW inpW =
        Except.error "generation failed") :=
  ⟨⟨by decide,
    (collaborator_failure_propagates cbW inpW "disk full"
        (fun _ => Except.error "disk full")
        (fun _ _ _ _ _ _ => Except.ok ())).1 (by decide) rfl⟩,
   ⟨by decide,
    (collaborator_failure_propagates cbW inpW "generation failed"
        (fun _ => Except.ok ())
        (fun _ _ _ _ _ _ => Except.error "generation failed")).2
      (fun _ => rfl) (by decide) rfl⟩⟩

/-- C7: every `generate_a_sample` call issues exactly one generation
request — for the single hard-coded (conditioning, context, prompt) triple
— seeds the generator with the same fixed seed 42 on every call, writes
exactly one image, and creates the output directory exactly when it does
not already exist (when it exists, no directory operation is attempted at
all, so none can fail). -/
theorem sample_generation_deterministic (dirExists : Bool)
    (save_path file_name : String) :
    (generate_a_sample dirExists save_path file_name).filter
        Effect.isGenerateReq =
      [Effect.generateReq "path/to/a/val/image/of/the/denseworld/task"
        "path/to/a/demo/image/of/the/denseworld/task"
        "The prompt for the task" 512 512 42] ∧
    (generate_a_sample dirExists save_path file_name).filter
        Effect.isManualSeed = [Effect.manualSeed 42] ∧
    (generate_a_sample dirExists save_path file_name).filter
        Effect.isMakedirs =
      (if dirExists then [] else [Effect.makedirs save_path]) ∧
    (generate_a_sample dirExists save_path file_name).filter
        Effect.isSaveImage =
      [Effect.saveImage
        (save_path ++ "/" ++ file_name ++ "_" ++ toString (0 : Nat) ++ ".jpg")] := by
  cases dirExists <;>
    simp [generate_a_sample, sampleLoop, test_list, List.enum,
      List.enumFrom, Effect.isGenerateReq, Effect.isManualSeed,
      Effect.isMakedirs, Effect.isSaveImage]

/-- C8: construction ignores an unrecognized configuration key entirely
(prepending one changes no field of the constructed state), and each
missing key falls back to its default: `print_every_n_steps` 10,
`save_interval` 1000, `sample_interval` 1000, `save_path` `"./output"`. -/
theorem config_defaults_and_unknown_keys (run_name : String) (cfg : Config)
    (wa : Bool) (env : String → Option String) (k : String) (v : ConfigValue)
    (hk : k ∉ ["print_every_n_steps", "save_interval", "sample_interval",
      "save_path", "wandb"]) :
    TrainingCallback.init run_name ((k, v) :: cfg) wa env =
      TrainingCallback.init run_name cfg wa env ∧
    (List.lookup "print_every_n_steps" cfg = none →
      (TrainingCallback.init run_name cfg wa env).print_every_n_steps = 10) ∧
    (List.lookup "save_interval" cfg = none →
      (TrainingCallback.init run_name cfg wa env).save_interval = 1000) ∧
    (List.lookup "sample_interval" cfg = none →
      (TrainingCallback.init run_name cfg wa env).sample_interval = 1000) ∧
    (List.lookup "save_path" cfg = none →
      (TrainingCallback.init run_name cfg wa env).save_path = "./output") := by
  simp only [List.mem_cons, not_or] at hk
  obtain ⟨h1, h2, h3, h4, h5, -⟩ := hk
  have b1 : ("print_every_n_steps" == k) = false :=
    beq_eq_false_iff_ne.mpr (Ne.symm h1)
  have b2 : ("save_interval" == k) = false :=
    beq_eq_false_iff_ne.mpr (Ne.symm h2)
  have b3 : ("sample_interval" == k) = false :=
    beq_eq_false_iff_ne.mpr (Ne.symm h3)
  have b4 : ("save_path" == k) = false :=
    beq_eq_false_iff_ne.mpr (Ne.symm h4)
  have b5 : ("wandb" == k) = false :=
    beq_eq_false_iff_ne.mpr (Ne.symm h5)
  refine ⟨?_, ?_, ?_, ?_, ?_⟩
  · simp [TrainingCallback.init, Config.getNat, Config.getStr, List.lookup,
      b1, b2, b3, b4, b5]
  · intro h
    simp [TrainingCallback.init, Config.getNat, h]
  · intro h
    simp [TrainingCallback.init, Config.getNat, h]
  · intro h
    simp [TrainingCallback.init, Config.getNat, h]
  · intro h
    simp [TrainingCallback.init, Config.getStr, h]

/-- Witness for C8: a configuration holding only the unrecognized key
`unknown_key` constructs the same state as the empty configuration, with
all four documented defaults. -/
theorem config_defaults_and_unknown_keys_witness :
    ("unknown_key" ∉ (["print_every_n_steps", "save_interval",
      "sample_interval", "save_path", "wandb"] : List String)) ∧
    (TrainingCallback.init "run" [("unknown_key", ConfigValue.natV 5)] false
        (fun _ => none) =
      TrainingCallback.init "run" [] false (fun _ => none) ∧
    (List.lookup "print_every_n_steps" ([] : Config) = none →
      (TrainingCallback.init "run" [] false
        (fun _ => none)).print_every_n_steps = 10) ∧
    (List.lookup "save_interval" ([] : Config) = none →
      (TrainingCallback.init "run" [] false
        (fun _ => none)).save_interval = 1000) ∧
    (List.lookup "sample_interval" ([] : Config) = none →
      (TrainingCallback.init "run" [] false
        (fun _ => none)).sample_interval = 1000) ∧
    (List.lookup "save_path" ([] : Config) = none →
      (TrainingCallback.init "run" [] false
        (fun _ => none)).save_path = "./output")) :=
  ⟨by decide,
   config_defaults_and_unknown_keys "run" [] false (fun _ => none)
     "unknown_key" (ConfigValue.natV 5) (by decide)⟩

/-- C10: on a step where both fire, the structured log record carries the
step-output loss multiplied by the gradient-accumulation factor while the
progress line carries the value of the module attribute `log_loss`; the two
inputs are independent, and on a concrete input the two reported loss
values differ within the same call. -/
theorem dual_loss_reporting (cb : TrainingCallback) (inp : BatchInput)
    (hw : cb.use_wandb = true)
    (hp : (cb.total_steps + 1) % cb.print_every_n_steps = 0) :
    Effect.wandbLog inp.batch_idx (cb.total_steps + 1)
        inp.trainer.current_epoch
        (gradStats inp.pl_module.named_parameters).1
        (inp.outputs.loss * (inp.trainer.accumulate_grad_batches : ℚ))
        inp.pl_module.last_t ∈ (on_train_batch_end cb inp).2 ∧
    Effect.printProgress inp.trainer.current_epoch (cb.total_steps + 1)
        inp.batch_idx inp.pl_module.log_loss
        (gradStats inp.pl_module.named_parameters).1
        (gradStats inp.pl_module.named_parameters).2.1 ∈
      (on_train_batch_end cb inp).2 ∧
    ∃ L1 L2 : ℚ, L1 ≠ L2 ∧
      Effect.wandbLog 0 1 0 2 L1 0 ∈ (on_train_batch_end cbW inpW).2 ∧
      Effect.printProgress 0 1 0 L2 2 2 ∈ (on_train_batch_end cbW inpW).2 := by
  have hmem1 : Effect.wandbLog 0 1 0 2 2 0 ∈ (on_train_batch_end cbW inpW).2 := by
    unfold on_train_batch_end
    norm_num [cbW, inpW, gradStats, gradStep]
  have hmem2 : Effect.printProgress 0 1 0 1 2 2 ∈ (on_train_batch_end cbW inpW).2 := by
    unfold on_train_batch_end
    norm_num [cbW, inpW, gradStats, gradStep]
  refine ⟨?_, ?_, 2, 1, by norm_num, hmem1, hmem2⟩
  · unfold on_train_batch_end
    simp [hw, hp]
  · unfold on_train_batch_end
    simp [hw, hp]

/-- Witness for C10 at `cbW`, `inpW`: logging is enabled, the print cadence
fires at step 1, the log record carries 2 (= loss 2 × accumulation 1), the
progress line carries `log_loss = 1`, and 2 ≠ 1. -/
theorem dual_loss_reporting_witness :
    cbW.use_wandb = true ∧
    (cbW.total_steps + 1) % cbW.print_every_n_steps = 0 ∧
    (Effect.wandbLog inpW.batch_idx (cbW.total_steps + 1)
        inpW.trainer.current_epoch
        (gradStats inpW.pl_module.named_parameters).1
        (inpW.outputs.loss * (inpW.trainer.accumulate_grad_batches : ℚ))
        inpW.pl_module.last_t ∈ (on_train_batch_end cbW inpW).2 ∧
    Effect.printProgress inpW.trainer.current_epoch (cbW.total_steps + 1)
        inpW.batch_idx inpW.pl_module.log_loss
        (gradStats inpW.pl_module.named_parameters).1
        (gradStats inpW.pl_module.named_parameters).2.1 ∈
      (on_train_batch_end cbW inpW).2 ∧
    ∃ L1 L2 : ℚ, L1 ≠ L2 ∧
      Effect.wandbLog 0 1 0 2 L1 0 ∈ (on_train_batch_end cbW inpW).2 ∧
      Effect.printProgress 0 1 0 L2 2 2 ∈ (on_train_batch_end cbW inpW).2) :=
  ⟨by decide, by decide, dual_loss_reporting cbW inpW (by decide) (by decide)⟩

